import Mathlib

/-!
Verification of the LibreQoS bakery command encoder, the node-manager search
endpoint and the overrides file against their natural-language specification.

The Rust sources are embedded shallowly:

* src/rust/lqos_bakery/src/commands.rs  — the tc command encoder
  (BakeryCommands::to_commands, mq_setup, add_site, add_circuit, to_prune);
* src/rust/lqosd/src/node_manager/local_api/search.rs — the search endpoint;
* src/rust/lqos_overrides/src/overrides_file.rs — the override file.

External collaborators (the queue_math helpers, lqos_config accessors, the
standard library IP parsers, the ip_network trie, serde and the file system)
are not part of the sources; they are embedded either as explicit function
parameters (so every theorem is universally quantified over them) or as
definitions whose doc comment starts with "Modelled from the spec:".
-/

namespace LibreQoS

/-- Lazy queue mode, mirroring lqos_config::LazyQueueMode (No, Htb, Full). -/
inductive LazyQueueMode
  | No
  | Htb
  | Full
deriving DecidableEq, Repr

/-- Execution mode of the bakery encoder (commands.rs, ExecutionMode). -/
inductive ExecutionMode
  | Builder
  | LiveUpdate
deriving DecidableEq, Repr

/-- Lowercase hex rendering of a natural number, as Rust format with the x
specifier produces (no padding, 0 renders as "0"). -/
def hexStr (n : Nat) : String := String.mk (Nat.toDigits 16 n)

/-- Modelled from the spec: lqos_bus::TcHandle is not in the sources.  Spec
section 3: a handle is a pair (major, minor) of u16 values. -/
structure TcHandle where
  major : Nat
  minor : Nat
deriving DecidableEq, Repr

/-- Modelled from the spec: TcHandle rendering, spec section 3: rendered as
0x<major>:0x<minor> in lowercase hex with no padding. -/
def TcHandle.as_tc_string (h : TcHandle) : String :=
  "0x" ++ hexStr h.major ++ ":0x" ++ hexStr h.minor

/-- The queue-related configuration fields consulted by commands.rs. -/
structure QueuesConfig where
  uplink_bandwidth_mbps : Nat
  downlink_bandwidth_mbps : Nat
  lazy_queues : Option LazyQueueMode
  monitor_only : Bool

/-- Modelled from the spec: lqos_config::Config is not in the sources.  Spec
section 3 lists the fields consulted by the encoder: the two interface names,
the on-a-stick flag and the queue block.  Per the spec section 3 invariant
("In on-a-stick mode, only the ISP interface carries an MQ root; upload
classes live under the same interface"), in on-a-stick mode both interface
accessors resolve to the single (ISP-facing) interface. -/
structure Config where
  isp_name : String
  internet_name : String
  on_a_stick : Bool
  queues : QueuesConfig

def Config.on_a_stick_mode (c : Config) : Bool := c.on_a_stick

def Config.isp_interface (c : Config) : String := c.isp_name

def Config.internet_interface (c : Config) : String :=
  if c.on_a_stick then c.isp_name else c.internet_name

/-- Convenience constructor used by the theorems below. -/
def mkConfig (isp inet : String) (stick : Bool) (uplink downlink : Nat)
    (lz : Option LazyQueueMode) (mon : Bool) : Config :=
  ⟨isp, inet, stick, ⟨uplink, downlink, lz, mon⟩⟩

/-- The queue_math helpers imported by commands.rs
(src/rust/lqos_bakery/src/queue_math.rs is not in the sources).  The encoder
is parameterised over them, so every theorem below holds for all
implementations.  The f32 rate arguments of the source are represented as
rationals. -/
structure QueueMath where
  format_rate_for_tc : Nat → String
  format_rate_for_tc_f32 : Rat → String
  quantum : Nat → Nat → String
  r2q : Nat → Nat
  sqm_as_vec : Config → List String
  sqm_rate_fixup : Rat → Config → List String

/-- Saturating cast from a rational (standing in for an f32 value) to u64, as
the Rust expression value as u64 behaves: truncation toward zero, negative
values saturate to 0. -/
def ratToU64 (q : Rat) : Nat := if q ≤ 0 then 0 else q.floor.toNat

/-- The BakeryCommands enum of commands.rs.  HashSet of circuit ids is
represented as a list; f32 rates as rationals. -/
inductive BakeryCommands
  | OnCircuitActivity (circuit_ids : List Int)
  | Tick
  | ChangeSiteSpeedLive (site_hash : Int)
      (download_bandwidth_min upload_bandwidth_min
       download_bandwidth_max upload_bandwidth_max : Rat)
  | StartBatch
  | CommitBatch
  | MqSetup (queues_available stick_offset : Nat)
  | AddSite (site_hash : Int) (parent_class_id up_parent_class_id : TcHandle)
      (class_minor : Nat)
      (download_bandwidth_min upload_bandwidth_min
       download_bandwidth_max upload_bandwidth_max : Rat)
  | AddCircuit (circuit_hash : Int) (parent_class_id up_parent_class_id : TcHandle)
      (class_minor : Nat)
      (download_bandwidth_min upload_bandwidth_min
       download_bandwidth_max upload_bandwidth_max : Rat)
      (class_major up_class_major : Nat) (ip_addresses : String)
  | StormGuardAdjustment (dry_run : Bool) (interface_name class_id : String)
      (new_rate : Nat)

/-- One five-command block of mq_setup (commands.rs lines 265-345 and 377-456):
htb qdisc, main class, main SQM, default class, default SQM for one queue
index.  The default-class rates are computed in f64 in the source; on the u64
range in use that computation agrees with the Nat expressions used here
(truncation toward zero, negative saturating to 0). -/
def queueBlock (qm : QueueMath) (iface : String) (mbps r2qv : Nat)
    (sqmv : List String) (idx : Nat) : List (List String) :=
  [ ["qdisc", "add", "dev", iface, "parent", "7FFF:0x" ++ hexStr idx,
     "handle", "0x" ++ hexStr idx ++ ":", "htb", "default", "2"],
    ["class", "add", "dev", iface, "parent", "0x" ++ hexStr idx ++ ":",
     "classid", "0x" ++ hexStr idx ++ ":1", "htb",
     "rate", qm.format_rate_for_tc mbps,
     "ceil", qm.format_rate_for_tc mbps,
     "quantum", qm.quantum mbps r2qv],
    ["qdisc", "add", "dev", iface, "parent", "0x" ++ hexStr idx ++ ":1"] ++ sqmv,
    ["class", "add", "dev", iface, "parent", "0x" ++ hexStr idx ++ ":1",
     "classid", "0x" ++ hexStr idx ++ ":2", "htb",
     "rate", qm.format_rate_for_tc ((mbps - 1) / 4),
     "ceil", qm.format_rate_for_tc (mbps - 1),
     "prio", "5",
     "quantum", qm.quantum mbps r2qv],
    ["qdisc", "add", "dev", iface, "parent", "0x" ++ hexStr idx ++ ":2"] ++ sqmv ]

/-- The per-queue loop of mq_setup: iterations 0, 1, ..., n-1 in order, the
queue index of iteration i being i + off + 1 (off is 0 for the ISP-facing loop
and stick_offset for the Internet-facing loop). -/
def queueBlocks (qm : QueueMath) (iface : String) (mbps r2qv : Nat)
    (sqmv : List String) (off : Nat) : Nat → List (List String)
  | 0 => []
  | n + 1 => queueBlocks qm iface mbps r2qv sqmv off n
      ++ queueBlock qm iface mbps r2qv sqmv (n + off + 1)

/-- BakeryCommands::mq_setup (commands.rs lines 192-460).  The MQ_CREATED
atomic store is a side effect outside the returned value and is not modelled. -/
def mq_setup (qm : QueueMath) (config : Config)
    (queues_available stick_offset : Nat) : Option (List (List String)) :=
  let clear : List (List String) :=
    if config.on_a_stick_mode then
      [["qdisc", "del", "dev", config.isp_interface, "root"]]
    else
      [["qdisc", "del", "dev", config.isp_interface, "root"],
       ["qdisc", "del", "dev", config.internet_interface, "root"]]
  let sqm_strings := qm.sqm_as_vec config
  let r2qv := qm.r2q (Nat.max config.queues.uplink_bandwidth_mbps
    config.queues.downlink_bandwidth_mbps)
  let isp_root : List (List String) :=
    [["qdisc", "replace", "dev", config.isp_interface, "root",
      "handle", "7FFF:", "mq"]]
  let isp_blocks := queueBlocks qm config.isp_interface
    config.queues.uplink_bandwidth_mbps r2qv sqm_strings 0 queues_available
  let internet_root : List (List String) :=
    if config.on_a_stick_mode then []
    else
      [["qdisc", "replace", "dev", config.internet_interface, "root",
        "handle", "7FFF:", "mq"]]
  let internet_blocks := queueBlocks qm config.internet_interface
    config.queues.downlink_bandwidth_mbps r2qv sqm_strings stick_offset
    queues_available
  some (clear ++ isp_root ++ isp_blocks ++ internet_root ++ internet_blocks)

/-- BakeryCommands::add_site (commands.rs lines 462-531). -/
def add_site (qm : QueueMath) (config : Config) (_site_hash : Int)
    (parent_class_id up_parent_class_id : TcHandle) (class_minor : Nat)
    (download_bandwidth_min upload_bandwidth_min
     download_bandwidth_max upload_bandwidth_max : Rat) :
    Option (List (List String)) :=
  some
    [ ["class", "replace", "dev", config.isp_interface,
       "parent", parent_class_id.as_tc_string,
       "classid", "0x" ++ hexStr class_minor, "htb",
       "rate", qm.format_rate_for_tc_f32 download_bandwidth_min,
       "ceil", qm.format_rate_for_tc_f32 download_bandwidth_max,
       "prio", "3",
       "quantum", qm.quantum (ratToU64 download_bandwidth_max)
         (qm.r2q config.queues.downlink_bandwidth_mbps)],
      ["class", "replace", "dev", config.internet_interface,
       "parent", up_parent_class_id.as_tc_string,
       "classid", "0x" ++ hexStr class_minor, "htb",
       "rate", qm.format_rate_for_tc_f32 upload_bandwidth_min,
       "ceil", qm.format_rate_for_tc_f32 upload_bandwidth_max,
       "prio", "3",
       "quantum", qm.quantum (ratToU64 upload_bandwidth_max)
         (qm.r2q config.queues.uplink_bandwidth_mbps)] ]

/-- The downlink HTB class replace of add_circuit (commands.rs lines 606-629). -/
def circuit_htb_down (qm : QueueMath) (config : Config)
    (parent_class_id : TcHandle) (class_minor : Nat) (dmin dmax : Rat) :
    List String :=
  ["class", "replace", "dev", config.isp_interface,
   "parent", parent_class_id.as_tc_string,
   "classid", "0x" ++ hexStr class_minor, "htb",
   "rate", qm.format_rate_for_tc_f32 dmin,
   "ceil", qm.format_rate_for_tc_f32 dmax,
   "prio", "3",
   "quantum", qm.quantum (ratToU64 dmax)
     (qm.r2q config.queues.downlink_bandwidth_mbps)]

/-- The downlink SQM qdisc replace of add_circuit (commands.rs lines 630-641). -/
def circuit_sqm_down (qm : QueueMath) (config : Config)
    (class_major class_minor : Nat) (dmax : Rat) : List String :=
  ["qdisc", "replace", "dev", config.isp_interface,
   "parent", "0x" ++ hexStr class_major ++ ":0x" ++ hexStr class_minor]
    ++ qm.sqm_rate_fixup dmax config

/-- The uplink HTB class replace of add_circuit (commands.rs lines 643-666). -/
def circuit_htb_up (qm : QueueMath) (config : Config)
    (up_parent_class_id : TcHandle) (class_minor : Nat) (umin umax : Rat) :
    List String :=
  ["class", "replace", "dev", config.internet_interface,
   "parent", up_parent_class_id.as_tc_string,
   "classid", "0x" ++ hexStr class_minor, "htb",
   "rate", qm.format_rate_for_tc_f32 umin,
   "ceil", qm.format_rate_for_tc_f32 umax,
   "prio", "3",
   "quantum", qm.quantum (ratToU64 umax)
     (qm.r2q config.queues.uplink_bandwidth_mbps)]

/-- The uplink SQM qdisc replace of add_circuit (commands.rs lines 668-679). -/
def circuit_sqm_up (qm : QueueMath) (config : Config)
    (up_class_major class_minor : Nat) (umax : Rat) : List String :=
  ["qdisc", "replace", "dev", config.internet_interface,
   "parent", "0x" ++ hexStr up_class_major ++ ":0x" ++ hexStr class_minor]
    ++ qm.sqm_rate_fixup umax config

/-- BakeryCommands::add_circuit (commands.rs lines 533-682).  The lazy policy
match yields none (the Rust early return) for Builder with Full, otherwise the
pair (do_htb, do_sqm); the four command pushes follow in source order, the SQM
pushes additionally gated on monitor_only being off. -/
def add_circuit (qm : QueueMath) (execution_mode : ExecutionMode)
    (config : Config) (_circuit_hash : Int)
    (parent_class_id up_parent_class_id : TcHandle) (class_minor : Nat)
    (dmin umin dmax umax : Rat) (class_major up_class_major : Nat) :
    Option (List (List String)) :=
  let flags : Option (Bool × Bool) :=
    match execution_mode with
    | .Builder =>
      match config.queues.lazy_queues with
      | none | some .No => some (true, true)
      | some .Full => none
      | some .Htb => some (true, false)
    | .LiveUpdate =>
      match config.queues.lazy_queues with
      | none | some .No => some (false, false)
      | some .Htb => some (false, true)
      | some .Full => some (true, true)
  match flags with
  | none => none
  | some (do_htb, do_sqm) =>
    some
      ((if do_htb then
          [circuit_htb_down qm config parent_class_id class_minor dmin dmax]
        else [])
      ++ (if !config.queues.monitor_only && do_sqm then
          [circuit_sqm_down qm config class_major class_minor dmax]
        else [])
      ++ (if do_htb then
          [circuit_htb_up qm config up_parent_class_id class_minor umin umax]
        else [])
      ++ (if !config.queues.monitor_only && do_sqm then
          [circuit_sqm_up qm config up_class_major class_minor umax]
        else []))

/-- BakeryCommands::to_commands (commands.rs lines 132-190).  Only MqSetup,
AddSite and AddCircuit are matched; every other variant falls into the
catch-all arm and yields none. -/
def to_commands (qm : QueueMath) (cmd : BakeryCommands) (config : Config)
    (execution_mode : ExecutionMode) : Option (List (List String)) :=
  match cmd with
  | .MqSetup queues_available stick_offset =>
      mq_setup qm config queues_available stick_offset
  | .AddSite site_hash p up cm a b c d =>
      add_site qm config site_hash p up cm a b c d
  | .AddCircuit ch p up cm a b c d maj umaj _ip =>
      add_circuit qm execution_mode config ch p up cm a b c d maj umaj
  | _ => none

/-- The uplink SQM qdisc deletion of to_prune (commands.rs lines 746-755). -/
def prune_sqm_up (config : Config) (up_class_major class_minor : Nat) :
    List String :=
  ["qdisc", "del", "dev", config.internet_interface,
   "parent", "0x" ++ hexStr up_class_major ++ ":0x" ++ hexStr class_minor]

/-- The downlink SQM qdisc deletion of to_prune (commands.rs lines 756-763). -/
def prune_sqm_down (config : Config) (class_major class_minor : Nat) :
    List String :=
  ["qdisc", "del", "dev", config.isp_interface,
   "parent", "0x" ++ hexStr class_major ++ ":0x" ++ hexStr class_minor]

/-- The downlink HTB class deletion of to_prune (commands.rs lines 768-777). -/
def prune_htb_down (config : Config) (parent_class_id : TcHandle)
    (class_minor : Nat) : List String :=
  ["class", "del", "dev", config.isp_interface,
   "parent", parent_class_id.as_tc_string,
   "classid", "0x" ++ hexStr class_minor]

/-- The uplink HTB class deletion of to_prune (commands.rs lines 778-787). -/
def prune_htb_up (config : Config) (up_parent_class_id : TcHandle)
    (class_minor : Nat) : List String :=
  ["class", "del", "dev", config.internet_interface,
   "parent", up_parent_class_id.as_tc_string,
   "classid", "0x" ++ hexStr class_minor]

/-- BakeryCommands::to_prune (commands.rs lines 699-791).  Non-circuit
commands yield none.  force short-circuits the lazy match; lazy disabled
(none or No) without force yields none.  SQM deletions come first (the uplink
one suppressed in on-a-stick mode), then the HTB class deletions. -/
def to_prune (cmd : BakeryCommands) (config : Config) (force : Bool) :
    Option (List (List String)) :=
  match cmd with
  | .AddCircuit _ parent_class_id up_parent_class_id class_minor
      _ _ _ _ class_major up_class_major _ =>
    let flags : Option (Bool × Bool) :=
      if force then some (true, true)
      else
        match config.queues.lazy_queues with
        | none | some .No => none
        | some .Htb => some (false, true)
        | some .Full => some (true, true)
    match flags with
    | none => none
    | some (prune_htb, prune_sqm) =>
      some
        ((if prune_sqm then
            (if !config.on_a_stick_mode then
              [prune_sqm_up config up_class_major class_minor]
            else [])
            ++ [prune_sqm_down config class_major class_minor]
          else [])
        ++ (if prune_htb then
            [prune_htb_down config parent_class_id class_minor,
             prune_htb_up config up_parent_class_id class_minor]
          else []))
  | _ => none

/-- Test whether an argv vector starts with the two given tokens; used to
classify emitted commands (class replace, qdisc replace, qdisc del, class del). -/
def startsWith2 (v : List String) (a b : String) : Bool :=
  match v with
  | x :: y :: _ => x == a && y == b
  | _ => false

/-- Number of argv vectors of the list starting with the two given tokens. -/
def count2 (l : List (List String)) (a b : String) : Nat :=
  (l.filter (fun v => startsWith2 v a b)).length

/-- The contents of an optional command list, the empty list when absent. -/
def emitted (o : Option (List (List String))) : List (List String) := o.getD []

/-- Claim C1: for every cell of the two lazy-materialization decision tables:
to_commands on AddCircuit with (Builder, Full) returns none; with
(Builder, No/None) it emits both HTB classes and both SQM qdiscs; with
(Builder, Htb) HTB only; with (LiveUpdate, No/None) nothing; with
(LiveUpdate, Htb) SQM only; with (LiveUpdate, Full) both.  to_prune with
force = false returns none when lazy is No/None, prunes only SQM when lazy is
Htb, and prunes both when lazy is Full; with force = true it always prunes
both.  Stated for configs with monitor_only off (the monitor-only gate on SQM
emission is a separate claim). -/
theorem lazy_policy_tables (qm : QueueMath) (isp inet : String) (stick : Bool)
    (uplink downlink : Nat) (ch : Int) (p upp : TcHandle) (cm maj umaj : Nat)
    (a b c d : Rat) (ips : String) :
    ((to_commands qm (.AddCircuit ch p upp cm a b c d maj umaj ips)
        (mkConfig isp inet stick uplink downlink none false) .Builder).isSome = true
      ∧ count2 (emitted (to_commands qm (.AddCircuit ch p upp cm a b c d maj umaj ips)
          (mkConfig isp inet stick uplink downlink none false) .Builder)) "class" "replace" = 2
      ∧ count2 (emitted (to_commands qm (.AddCircuit ch p upp cm a b c d maj umaj ips)
          (mkConfig isp inet stick uplink downlink none false) .Builder)) "qdisc" "replace" = 2)
    ∧ ((to_commands qm (.AddCircuit ch p upp cm a b c d maj umaj ips)
        (mkConfig isp inet stick uplink downlink (some .No) false) .Builder).isSome = true
      ∧ count2 (emitted (to_commands qm (.AddCircuit ch p upp cm a b c d maj umaj ips)
          (mkConfig isp inet stick uplink downlink (some .No) false) .Builder)) "class" "replace" = 2
      ∧ count2 (emitted (to_commands qm (.AddCircuit ch p upp cm a b c d maj umaj ips)
          (mkConfig isp inet stick uplink downlink (some .No) false) .Builder)) "qdisc" "replace" = 2)
    ∧ ((to_commands qm (.AddCircuit ch p upp cm a b c d maj umaj ips)
        (mkConfig isp inet stick uplink downlink (some .Htb) false) .Builder).isSome = true
      ∧ count2 (emitted (to_commands qm (.AddCircuit ch p upp cm a b c d maj umaj ips)
          (mkConfig isp inet stick uplink downlink (some .Htb) false) .Builder)) "class" "replace" = 2
      ∧ count2 (emitted (to_commands qm (.AddCircuit ch p upp cm a b c d maj umaj ips)
          (mkConfig isp inet stick uplink downlink (some .Htb) false) .Builder)) "qdisc" "replace" = 0)
    ∧ (to_commands qm (.AddCircuit ch p upp cm a b c d maj umaj ips)
        (mkConfig isp inet stick uplink downlink (some .Full) false) .Builder = none)
    ∧ (to_commands qm (.AddCircuit ch p upp cm a b c d maj umaj ips)
        (mkConfig isp inet stick uplink downlink none false) .LiveUpdate = some [])
    ∧ (to_commands qm (.AddCircuit ch p upp cm a b c d maj umaj ips)
        (mkConfig isp inet stick uplink downlink (some .No) false) .LiveUpdate = some [])
    ∧ ((to_commands qm (.AddCircuit ch p upp cm a b c d maj umaj ips)
        (mkConfig isp inet stick uplink downlink (some .Htb) false) .LiveUpdate).isSome = true
      ∧ count2 (emitted (to_commands qm (.AddCircuit ch p upp cm a b c d maj umaj ips)
          (mkConfig isp inet stick uplink downlink (some .Htb) false) .LiveUpdate)) "class" "replace" = 0
      ∧ count2 (emitted (to_commands qm (.AddCircuit ch p upp cm a b c d maj umaj ips)
          (mkConfig isp inet stick uplink downlink (some .Htb) false) .LiveUpdate)) "qdisc" "replace" = 2)
    ∧ ((to_commands qm (.AddCircuit ch p upp cm a b c d maj umaj ips)
        (mkConfig isp inet stick uplink downlink (some .Full) false) .LiveUpdate).isSome = true
      ∧ count2 (emitted (to_commands qm (.AddCircuit ch p upp cm a b c d maj umaj ips)
          (mkConfig isp inet stick uplink downlink (some .Full) false) .LiveUpdate)) "class" "replace" = 2
      ∧ count2 (emitted (to_commands qm (.AddCircuit ch p upp cm a b c d maj umaj ips)
          (mkConfig isp inet stick uplink downlink (some .Full) false) .LiveUpdate)) "qdisc" "replace" = 2)
    ∧ (to_prune (.AddCircuit ch p upp cm a b c d maj umaj ips)
        (mkConfig isp inet stick uplink downlink none false) false = none)
    ∧ (to_prune (.AddCircuit ch p upp cm a b c d maj umaj ips)
        (mkConfig isp inet stick uplink downlink (some .No) false) false = none)
    ∧ ((to_prune (.AddCircuit ch p upp cm a b c d maj umaj ips)
        (mkConfig isp inet stick uplink downlink (some .Htb) false) false).isSome = true
      ∧ count2 (emitted (to_prune (.AddCircuit ch p upp cm a b c d maj umaj ips)
          (mkConfig isp inet stick uplink downlink (some .Htb) false) false)) "qdisc" "del"
          = (if stick then 1 else 2)
      ∧ count2 (emitted (to_prune (.AddCircuit ch p upp cm a b c d maj umaj ips)
          (mkConfig isp inet stick uplink downlink (some .Htb) false) false)) "class" "del" = 0)
    ∧ ((to_prune (.AddCircuit ch p upp cm a b c d maj umaj ips)
        (mkConfig isp inet stick uplink downlink (some .Full) false) false).isSome = true
      ∧ count2 (emitted (to_prune (.AddCircuit ch p upp cm a b c d maj umaj ips)
          (mkConfig isp inet stick uplink downlink (some .Full) false) false)) "qdisc" "del"
          = (if stick then 1 else 2)
      ∧ count2 (emitted (to_prune (.AddCircuit ch p upp cm a b c d maj umaj ips)
          (mkConfig isp inet stick uplink downlink (some .Full) false) false)) "class" "del" = 2)
    ∧ (∀ lz : Option LazyQueueMode,
        (to_prune (.AddCircuit ch p upp cm a b c d maj umaj ips)
          (mkConfig isp inet stick uplink downlink lz false) true).isSome = true
        ∧ count2 (emitted (to_prune (.AddCircuit ch p upp cm a b c d maj umaj ips)
            (mkConfig isp inet stick uplink downlink lz false) true)) "qdisc" "del"
            = (if stick then 1 else 2)
        ∧ count2 (emitted (to_prune (.AddCircuit ch p upp cm a b c d maj umaj ips)
            (mkConfig isp inet stick uplink downlink lz false) true)) "class" "del" = 2) := by
  refine ⟨⟨rfl, ?_, ?_⟩, ⟨rfl, ?_, ?_⟩, ⟨rfl, ?_, ?_⟩, rfl, rfl, rfl,
    ⟨rfl, ?_, ?_⟩, ⟨rfl, ?_, ?_⟩, rfl, rfl,
    ⟨rfl, ?_, ?_⟩, ⟨rfl, ?_, ?_⟩, fun lz => ⟨rfl, ?_, ?_⟩⟩ <;>
    cases stick <;> rfl

/-- Modelled from the spec: a concrete stand-in for the queue_math helpers
(src/rust/lqos_bakery/src/queue_math.rs is not in the sources), following the
spec section 4.1 formulas where they are given.  Used only to evaluate
counterexamples and witnesses on concrete inputs; every claim theorem is
universally quantified over QueueMath, so nothing depends on this instance. -/
def qm0 : QueueMath where
  format_rate_for_tc := fun mbps => toString (Nat.max 1 mbps) ++ "mbit"
  format_rate_for_tc_f32 := fun q => toString (Nat.max 1 (ratToU64 q)) ++ "mbit"
  quantum := fun mbps r2qv => toString (Nat.max 1500 (mbps * 125000 / Nat.max 1 r2qv))
  r2q := fun _ => 10
  sqm_as_vec := fun _ => ["cake", "diffserv4"]
  sqm_rate_fixup := fun _ _ => ["cake", "diffserv4"]

/-- A concrete configuration: two distinct interfaces, not on a stick,
symmetric gigabit, lazy queues disabled, shaping enabled. -/
def cfg0 : Config := mkConfig "eth0" "eth1" false 1000 1000 none false

/-- Claim C2 (amended): to_commands returns none for every
StormGuardAdjustment command, in every configuration and execution mode; the
variant falls into the catch-all arm of the match in commands.rs lines
132-190, so the storm-guard tc invocation is not produced by the encoder. -/
theorem storm_guard_not_encoded (qm : QueueMath) (config : Config)
    (mode : ExecutionMode) (dry_run : Bool) (iface cid : String)
    (new_rate : Nat) :
    to_commands qm (.StormGuardAdjustment dry_run iface cid new_rate)
      config mode = none := rfl

/-- Claim C2 counterexample: on a concrete StormGuardAdjustment command,
to_commands does not return exactly one tc argv vector — it returns none. -/
theorem storm_guard_counterexample :
    ¬ ∃ l, to_commands qm0 (.StormGuardAdjustment true "eth0" "1:2" 500)
        cfg0 .Builder = some l ∧ l.length = 1 := by
  rintro ⟨l, h, -⟩
  simp [to_commands] at h

/-- Claim C3 (amended): to_commands returns none for every
ChangeSiteSpeedLive command, in every configuration and execution mode; the
variant falls into the catch-all arm of the match in commands.rs lines
132-190, so the two live class-change invocations are not produced by the
encoder. -/
theorem change_site_speed_live_not_encoded (qm : QueueMath) (config : Config)
    (mode : ExecutionMode) (site_hash : Int) (a b c d : Rat) :
    to_commands qm (.ChangeSiteSpeedLive site_hash a b c d) config mode
      = none := rfl

/-- Claim C3 counterexample: on a concrete ChangeSiteSpeedLive command,
to_commands does not return exactly two tc argv vectors — it returns none. -/
theorem change_site_speed_live_counterexample :
    ¬ ∃ l, to_commands qm0 (.ChangeSiteSpeedLive 1 100 50 1000 500)
        cfg0 .LiveUpdate = some l ∧ l.length = 2 := by
  rintro ⟨l, h, -⟩
  simp [to_commands] at h

/-- The inverse of an emitted tc command: replace becomes del, and the
dev/parent(/classid) target prefix is kept (six tokens after the verb for a
class command, four for a qdisc command), dropping rates and SQM parameters. -/
def invCmd : List String → List String
  | "class" :: "replace" :: rest => "class" :: "del" :: rest.take 6
  | "qdisc" :: "replace" :: rest => "qdisc" :: "del" :: rest.take 4
  | v => v

/-- A concrete circuit command used by counterexamples and witnesses. -/
def circ0 : BakeryCommands :=
  .AddCircuit 1 ⟨1, 1⟩ ⟨1, 1⟩ 3 2 2 10 10 1 2 "10.0.0.1"

/-- Claim C4 counterexample: for a concrete circuit in a concrete
non-on-a-stick configuration with monitor_only off and lazy queues disabled,
to_prune with force does not emit the inverses of the AddCircuit commands in
reverse order: the two HTB class deletions come out in the same order
(downlink first) as their class replaces, not reversed.  Both readings of the
claimed order are refuted: the plain reverse of the emission, and the reverse
reordered so that all qdisc deletions come first. -/
theorem prune_force_inverse_counterexample :
    (to_prune circ0 cfg0 true
      ≠ some ((emitted (to_commands qm0 circ0 cfg0 .Builder)).reverse.map invCmd))
    ∧ (to_prune circ0 cfg0 true
      ≠ some [invCmd (circuit_sqm_up qm0 cfg0 2 3 10),
              invCmd (circuit_sqm_down qm0 cfg0 1 3 10),
              invCmd (circuit_htb_up qm0 cfg0 ⟨1, 1⟩ 3 2 10),
              invCmd (circuit_htb_down qm0 cfg0 ⟨1, 1⟩ 3 2 10)]) := by
  constructor <;> decide

/-- Claim C4 (amended): for every circuit and every configuration with
monitor_only off and lazy queues disabled, to_prune with force emits exactly
the inverse commands (del with the same dev, parent and classid targets) of
the four commands AddCircuit emits in Builder mode: first the SQM qdisc
deletions in reverse order of their creation (the uplink deletion omitted in
on-a-stick mode), then the two HTB class deletions in the same order as their
creation (downlink first, then uplink). -/
theorem prune_force_inverse_amended (qm : QueueMath) (isp inet : String)
    (uplink downlink : Nat) (ch : Int) (p upp : TcHandle) (cm maj umaj : Nat)
    (a b c d : Rat) (ips : String) (lz : Option LazyQueueMode) :
    (to_commands qm (.AddCircuit ch p upp cm a b c d maj umaj ips)
        (mkConfig isp inet false uplink downlink none false) .Builder
      = some [circuit_htb_down qm (mkConfig isp inet false uplink downlink none false) p cm a c,
              circuit_sqm_down qm (mkConfig isp inet false uplink downlink none false) maj cm c,
              circuit_htb_up qm (mkConfig isp inet false uplink downlink none false) upp cm b d,
              circuit_sqm_up qm (mkConfig isp inet false uplink downlink none false) umaj cm d])
    ∧ (to_commands qm (.AddCircuit ch p upp cm a b c d maj umaj ips)
        (mkConfig isp inet false uplink downlink (some .No) false) .Builder
      = some [circuit_htb_down qm (mkConfig isp inet false uplink downlink (some .No) false) p cm a c,
              circuit_sqm_down qm (mkConfig isp inet false uplink downlink (some .No) false) maj cm c,
              circuit_htb_up qm (mkConfig isp inet false uplink downlink (some .No) false) upp cm b d,
              circuit_sqm_up qm (mkConfig isp inet false uplink downlink (some .No) false) umaj cm d])
    ∧ (to_prune (.AddCircuit ch p upp cm a b c d maj umaj ips)
        (mkConfig isp inet false uplink downlink lz false) true
      = some [invCmd (circuit_sqm_up qm (mkConfig isp inet false uplink downlink lz false) umaj cm d),
              invCmd (circuit_sqm_down qm (mkConfig isp inet false uplink downlink lz false) maj cm c),
              invCmd (circuit_htb_down qm (mkConfig isp inet false uplink downlink lz false) p cm a c),
              invCmd (circuit_htb_up qm (mkConfig isp inet false uplink downlink lz false) upp cm b d)])
    ∧ (to_prune (.AddCircuit ch p upp cm a b c d maj umaj ips)
        (mkConfig isp inet true uplink downlink lz false) true
      = some [invCmd (circuit_sqm_down qm (mkConfig isp inet true uplink downlink lz false) maj cm c),
              invCmd (circuit_htb_down qm (mkConfig isp inet true uplink downlink lz false) p cm a c),
              invCmd (circuit_htb_up qm (mkConfig isp inet true uplink downlink lz false) upp cm b d)]) :=
  ⟨rfl, rfl, rfl, rfl⟩

/-- The do_sqm column of the lazy decision logic in add_circuit, read off the
source (commands.rs lines 547-583); Builder with Full yields false here
because the command emits nothing at all. -/
def sqmEnabled : ExecutionMode → Option LazyQueueMode → Bool
  | .Builder, none | .Builder, some .No => true
  | .Builder, some .Htb => false
  | .Builder, some .Full => false
  | .LiveUpdate, none | .LiveUpdate, some .No => false
  | .LiveUpdate, some .Htb => true
  | .LiveUpdate, some .Full => true

/-- Claim C5: for every AddCircuit command, every execution mode and every
configuration, the emitted list contains SQM qdisc replace vectors exactly
when monitor_only is off and the lazy policy enables SQM, and then exactly one
per direction (two total); in particular with monitor_only on there is never
an SQM qdisc replace vector. -/
theorem monitor_only_gates_sqm (qm : QueueMath) (isp inet : String)
    (stick : Bool) (uplink downlink : Nat) (lz : Option LazyQueueMode)
    (mon : Bool) (mode : ExecutionMode) (ch : Int) (p upp : TcHandle)
    (cm maj umaj : Nat) (a b c d : Rat) (ips : String) :
    count2 (emitted (to_commands qm (.AddCircuit ch p upp cm a b c d maj umaj ips)
        (mkConfig isp inet stick uplink downlink lz mon) mode)) "qdisc" "replace"
      = (if !mon && sqmEnabled mode lz then 2 else 0) := by
  cases mode <;> cases mon <;> rcases lz with _ | (_ | _ | _) <;> rfl

theorem count2_append (l1 l2 : List (List String)) (a b : String) :
    count2 (l1 ++ l2) a b = count2 l1 a b + count2 l2 a b := by
  simp [count2, List.filter_append]

theorem count2_cons (v : List String) (l : List (List String)) (a b : String) :
    count2 (v :: l) a b
      = (if startsWith2 v a b then 1 else 0) + count2 l a b := by
  by_cases h : startsWith2 v a b = true <;>
    simp [count2, List.filter_cons, h, Nat.add_comm]

theorem count2_queueBlock_del (qm : QueueMath) (iface : String)
    (mbps r2qv : Nat) (sqmv : List String) (idx : Nat) :
    count2 (queueBlock qm iface mbps r2qv sqmv idx) "qdisc" "del" = 0 := rfl

theorem count2_queueBlock_replace (qm : QueueMath) (iface : String)
    (mbps r2qv : Nat) (sqmv : List String) (idx : Nat) :
    count2 (queueBlock qm iface mbps r2qv sqmv idx) "qdisc" "replace" = 0 := rfl

theorem count2_queueBlocks_del (qm : QueueMath) (iface : String)
    (mbps r2qv : Nat) (sqmv : List String) (off : Nat) : ∀ n : Nat,
    count2 (queueBlocks qm iface mbps r2qv sqmv off n) "qdisc" "del" = 0
  | 0 => rfl
  | n + 1 => by
    simp [queueBlocks, count2_append,
      count2_queueBlocks_del qm iface mbps r2qv sqmv off n,
      count2_queueBlock_del]

theorem count2_queueBlocks_replace (qm : QueueMath) (iface : String)
    (mbps r2qv : Nat) (sqmv : List String) (off : Nat) : ∀ n : Nat,
    count2 (queueBlocks qm iface mbps r2qv sqmv off n) "qdisc" "replace" = 0
  | 0 => rfl
  | n + 1 => by
    simp [queueBlocks, count2_append,
      count2_queueBlocks_replace qm iface mbps r2qv sqmv off n,
      count2_queueBlock_replace]

theorem queueBlocks_dev (qm : QueueMath) (iface : String) (mbps r2qv : Nat)
    (sqmv : List String) (off : Nat) : ∀ n : Nat,
    ∀ v ∈ queueBlocks qm iface mbps r2qv sqmv off n, v.get? 3 = some iface
  | 0 => by intro v hv; simp [queueBlocks] at hv
  | n + 1 => by
    intro v hv
    rw [queueBlocks, List.mem_append] at hv
    rcases hv with hv | hv
    · exact queueBlocks_dev qm iface mbps r2qv sqmv off n v hv
    · simp only [queueBlock, List.mem_cons, List.not_mem_nil, or_false] at hv
      rcases hv with rfl | rfl | rfl | rfl | rfl <;> rfl

theorem mq_setup_stick_shape (qm : QueueMath) (isp inet : String)
    (uplink downlink : Nat) (lz : Option LazyQueueMode) (mon : Bool)
    (q s : Nat) :
    mq_setup qm (mkConfig isp inet true uplink downlink lz mon) q s
      = some ([["qdisc", "del", "dev", isp, "root"],
               ["qdisc", "replace", "dev", isp, "root", "handle", "7FFF:", "mq"]]
          ++ queueBlocks qm isp uplink (qm.r2q (Nat.max uplink downlink))
              (qm.sqm_as_vec (mkConfig isp inet true uplink downlink lz mon)) 0 q
          ++ queueBlocks qm isp downlink (qm.r2q (Nat.max uplink downlink))
              (qm.sqm_as_vec (mkConfig isp inet true uplink downlink lz mon)) s q) := by
  simp [mq_setup, mkConfig, Config.on_a_stick_mode, Config.isp_interface,
    Config.internet_interface]

/-- Claim C6: with on_a_stick on, for every configuration, queue count and
stick offset, the MqSetup emission consists of exactly one root qdisc del and
exactly one mq root replace followed by the two per-queue loops, both on the
ISP interface; the second (upload) loop's blocks are placed on the ISP
interface with queue index n + stick_offset + 1 for iteration n, so every one
of its vectors names the ISP interface as its dev argument. -/
theorem on_a_stick_mq_setup (qm : QueueMath) (isp inet : String)
    (uplink downlink : Nat) (lz : Option LazyQueueMode) (mon : Bool)
    (q s : Nat) :
    (mq_setup qm (mkConfig isp inet true uplink downlink lz mon) q s
      = some ([["qdisc", "del", "dev", isp, "root"],
               ["qdisc", "replace", "dev", isp, "root", "handle", "7FFF:", "mq"]]
          ++ queueBlocks qm isp uplink (qm.r2q (Nat.max uplink downlink))
              (qm.sqm_as_vec (mkConfig isp inet true uplink downlink lz mon)) 0 q
          ++ queueBlocks qm isp downlink (qm.r2q (Nat.max uplink downlink))
              (qm.sqm_as_vec (mkConfig isp inet true uplink downlink lz mon)) s q))
    ∧ count2 (emitted (mq_setup qm (mkConfig isp inet true uplink downlink lz mon) q s))
        "qdisc" "del" = 1
    ∧ count2 (emitted (mq_setup qm (mkConfig isp inet true uplink downlink lz mon) q s))
        "qdisc" "replace" = 1
    ∧ ∀ v ∈ queueBlocks qm isp downlink (qm.r2q (Nat.max uplink downlink))
        (qm.sqm_as_vec (mkConfig isp inet true uplink downlink lz mon)) s q,
        v.get? 3 = some isp := by
  refine ⟨mq_setup_stick_shape qm isp inet uplink downlink lz mon q s, ?_, ?_,
    queueBlocks_dev qm isp downlink _ _ s q⟩ <;>
  · rw [mq_setup_stick_shape qm isp inet uplink downlink lz mon q s]
    simp only [emitted, Option.getD_some, List.cons_append, List.nil_append,
      List.append_assoc, count2_cons, count2_append, count2_queueBlocks_del,
      count2_queueBlocks_replace]
    rfl

/-! Embedding of the node-manager search endpoint
(src/rust/lqosd/src/node_manager/local_api/search.rs).  The standard-library
IP parsers, the ip_network crate (network display, Ipv6Network::new, the LPM
trie) and the shared device/site catalogs are external; they enter as fields
of SearchEnv, so the theorems hold for all of them. -/

/-- The fields of a shaped device consulted by search.rs. -/
structure Device where
  circuit_id : String
  device_name : String
  circuit_name : String
deriving DecidableEq, Repr

/-- An IP address as std::net::IpAddr: a v4 or v6 numeric value. -/
inductive IpAddr
  | V4 (addr : Nat)
  | V6 (addr : Nat)
deriving DecidableEq, Repr

/-- An ip_network::IpNetwork: a network address with its prefix length. -/
inductive IpNetwork
  | V4 (addr pfx : Nat)
  | V6 (addr pfx : Nat)
deriving DecidableEq, Repr

/-- Modelled from the spec: IPv4 mapped into IPv6 space (spec section 6,
"IPv4 mapped into IPv6 space with +96 prefix"), the ::ffff:a.b.c.d mapping of
Ipv4Addr::to_ipv6_mapped. -/
def toIpv6Mapped (v4 : Nat) : Nat := 0xffff * 2 ^ 32 + v4 % 2 ^ 32

/-- The v6 query address computed in the first pass of search (search.rs
lines 97-100). -/
def queryV6 : IpAddr → Nat
  | .V4 v4 => toIpv6Mapped v4
  | .V6 v6 => v6

/-- ipv6_overlap from search.rs lines 26-42: two v6 networks overlap when
they agree on the shorter of the two prefixes; anything involving a v4
network is false.  u128 values are naturals taken mod 2 to the 128. -/
def ipv6_overlap (a b : IpNetwork) : Bool :=
  match a, b with
  | .V6 a6 ap, .V6 b6 bp =>
    let minp := Nat.min ap bp
    if minp = 0 then true
    else
      let mask : Nat :=
        if minp = 128 then 2 ^ 128 - 1
        else ((2 ^ 128 - 1) <<< (128 - minp)) % 2 ^ 128
      (a6 &&& mask) == (b6 &&& mask)
  | _, _ => false

/-- External collaborators and catalog state of the search endpoint: the
std/ip_network functions as opaque parameters, the LPM trie as its lookup
function plus its iteration order, the SHAPED_DEVICES device list and the
NETWORK_JSON node names. -/
structure SearchEnv where
  parseIp : String → Option IpAddr
  parseNet : String → Option IpNetwork
  display : IpNetwork → String
  mkV6Net : Nat → Nat → Option IpNetwork
  longestMatch : Nat → Option (IpNetwork × Nat)
  trie : List (IpNetwork × Nat)
  devices : List Device
  nodes : List String

/-- SearchResult from search.rs lines 50-64. -/
inductive SearchResult
  | Circuit (id name : String)
  | Device (circuit_id name circuit_name : String)
  | Site (idx : Nat) (name : String)
deriving DecidableEq, Repr

/-- The dedup key of a result (search.rs lines 84-88). -/
def SearchResult.key : SearchResult → String
  | .Circuit id _ => "Circuit:" ++ id
  | .Device circuit_id name _ => "Device:" ++ circuit_id ++ ":" ++ name
  | .Site idx _ => "Site:" ++ toString idx

/-- MAX_RESULTS from search.rs line 67. -/
def MAX_RESULTS : Nat := 50

/-- The mutable state threaded through search: the result list and the set of
seen dedup keys (a list here; only membership is used). -/
structure SState where
  results : List SearchResult
  seen : List String

/-- push_result from search.rs lines 77-92: do nothing at the cap or when the
key was already seen, otherwise append the result and record its key. -/
def push_result (s : SState) (r : SearchResult) : SState :=
  if MAX_RESULTS ≤ s.results.length then s
  else if r.key ∈ s.seen then s
  else ⟨s.results ++ [r], r.key :: s.seen⟩

/-- Helper for substring containment over character lists. -/
def containsSubAux (pat : List Char) : List Char → Bool
  | [] => pat.isEmpty
  | c :: rest => pat.isPrefixOf (c :: rest) || containsSubAux pat rest

/-- Modelled from the spec: Rust str::contains substring matching (the
standard library is not in the sources); character-level containment. -/
def containsSub (s pat : String) : Bool := containsSubAux pat.toList s.toList

/-- First pass of search (search.rs lines 94-112): exact IP lookup through
the LPM trie; pushes at most one Device result. -/
def pass1 (env : SearchEnv) (raw_term : String) (s : SState) : SState :=
  match env.parseIp raw_term with
  | some ip =>
    match env.longestMatch (queryV6 ip) with
    | some (net, idx) =>
      match env.devices.get? idx with
      | some dev =>
        push_result s (.Device dev.circuit_id
          (dev.device_name ++ " (" ++ env.display net ++ ")") dev.circuit_name)
      | none => s
    | none => s
  | none => s

/-- Second pass of search (search.rs lines 114-164): CIDR overlap through the
trie when the term parses as CIDR, else textual network-string matching.
The early loop breaks of the source are represented by the per-iteration cap
test, which push_result re-checks, so the emitted results are identical. -/
def pass2 (env : SearchEnv) (raw_term term_lc : String) (s : SState) : SState :=
  if s.results.length < MAX_RESULTS
      ∧ (raw_term.contains '.' || raw_term.contains ':') = true
      ∧ 3 ≤ term_lc.length then
    if raw_term.contains '/' then
      match env.parseNet raw_term with
      | some net =>
        let net_v6 : IpNetwork :=
          match net with
          | .V4 addr pfx =>
            let a := toIpv6Mapped addr
            let mapped_pfx := Nat.min (pfx + 96) 255
            match env.mkV6Net a mapped_pfx with
            | some n => n
            | none => .V6 a 128
          | .V6 addr pfx => .V6 addr pfx
        env.trie.foldl (fun st pair =>
          if MAX_RESULTS ≤ st.results.length then st
          else if ipv6_overlap pair.1 net_v6 then
            match env.devices.get? pair.2 with
            | some dev => push_result st (.Device dev.circuit_id
                (dev.device_name ++ " (" ++ env.display pair.1 ++ ")")
                dev.circuit_name)
            | none => st
          else st) s
      | none => s
    else
      env.trie.foldl (fun st pair =>
        if MAX_RESULTS ≤ st.results.length then st
        else if (env.display pair.1).startsWith raw_term then
          match env.devices.get? pair.2 with
          | some dev => push_result st (.Device dev.circuit_id
              (dev.device_name ++ " (" ++ env.display pair.1 ++ ")")
              dev.circuit_name)
          | none => st
        else st) s
  else s

/-- The circuit-name check of the third-pass loop body (search.rs lines
170-174). -/
def pass3Step1 (term_lc : String) (st : SState) (sd : Device) : SState :=
  if MAX_RESULTS ≤ st.results.length then st
  else if containsSub sd.circuit_name.toLower term_lc then
    push_result st (.Circuit sd.circuit_id sd.circuit_name)
  else st

/-- The device-name check of the third-pass loop body (search.rs lines
175-179). -/
def pass3Step2 (term_lc : String) (st : SState) (sd : Device) : SState :=
  if MAX_RESULTS ≤ st.results.length then st
  else if containsSub sd.device_name.toLower term_lc then
    push_result st (.Device sd.circuit_id sd.device_name sd.circuit_name)
  else st

/-- Third pass of search (search.rs lines 166-181): case-insensitive
substring matching on circuit and device names, two sequential checks per
device. -/
def pass3 (env : SearchEnv) (term_lc : String) (s : SState) : SState :=
  if s.results.length < MAX_RESULTS ∧ 3 ≤ term_lc.length then
    env.devices.foldl
      (fun st sd => pass3Step2 term_lc (pass3Step1 term_lc st sd) sd) s
  else s

/-- Fourth pass of search (search.rs lines 183-192): site name substring
matching over the enumerated network nodes. -/
def pass4 (env : SearchEnv) (term_lc : String) (s : SState) : SState :=
  if s.results.length < MAX_RESULTS ∧ 3 ≤ term_lc.length then
    env.nodes.enum.foldl (fun st p =>
      if MAX_RESULTS ≤ st.results.length then st
      else if containsSub p.2.toLower term_lc then
        push_result st (.Site p.1 p.2)
      else st) s
  else s

/-- The search endpoint (search.rs lines 66-195): trim, lowercase, then the
four passes in order from the empty state. -/
def search (env : SearchEnv) (term : String) : List SearchResult :=
  let raw_term := term.trim
  let term_lc := raw_term.toLower
  (pass4 env term_lc (pass3 env term_lc (pass2 env raw_term term_lc
    (pass1 env raw_term ⟨[], []⟩)))).results

/-- The invariant maintained by every push: at most MAX_RESULTS results,
pairwise distinct dedup keys, and every present key recorded as seen. -/
def SInv (s : SState) : Prop :=
  s.results.length ≤ MAX_RESULTS
  ∧ (s.results.map SearchResult.key).Nodup
  ∧ ∀ r ∈ s.results, r.key ∈ s.seen

theorem push_result_inv {s : SState} (r : SearchResult) (h : SInv s) :
    SInv (push_result s r) := by
  unfold push_result
  split
  · exact h
  · split
    · exact h
    · rename_i hcap hseen
      refine ⟨?_, ?_, ?_⟩
      · simp only [List.length_append, List.length_cons, List.length_nil]
        omega
      · rw [List.map_append, List.nodup_append]
        refine ⟨h.2.1, by simp, ?_⟩
        intro a ha hb
        simp only [List.map_cons, List.map_nil, List.mem_singleton] at hb
        subst hb
        rcases List.mem_map.1 ha with ⟨x, hx, hkey⟩
        exact hseen (hkey ▸ h.2.2 x hx)
      · intro x hx
        rcases List.mem_append.1 hx with hx | hx
        · exact List.mem_cons_of_mem _ (h.2.2 x hx)
        · simp only [List.mem_singleton] at hx
          subst hx
          exact List.mem_cons_self _ _

theorem foldl_inv {α : Type} (g : SState → α → SState)
    (hg : ∀ st a, SInv st → SInv (g st a)) :
    ∀ (l : List α) (st : SState), SInv st → SInv (l.foldl g st)
  | [], _, h => h
  | x :: xs, st, h => foldl_inv g hg xs (g st x) (hg st x h)

theorem pass1_inv (env : SearchEnv) (rt : String) {s : SState} (h : SInv s) :
    SInv (pass1 env rt s) := by
  unfold pass1
  split
  · split
    · split
      · exact push_result_inv _ h
      · exact h
    · exact h
  · exact h

theorem pass2_inv (env : SearchEnv) (rt tl : String) {s : SState}
    (h : SInv s) : SInv (pass2 env rt tl s) := by
  unfold pass2
  split
  · split
    · split
      · apply foldl_inv _ _ _ _ h
        intro st a h'
        split
        · exact h'
        · split
          · split
            · exact push_result_inv _ h'
            · exact h'
          · exact h'
      · exact h
    · apply foldl_inv _ _ _ _ h
      intro st a h'
      split
      · exact h'
      · split
        · split
          · exact push_result_inv _ h'
          · exact h'
        · exact h'
  · exact h

theorem pass3Step1_inv (tl : String) {st : SState} (sd : Device)
    (h : SInv st) : SInv (pass3Step1 tl st sd) := by
  unfold pass3Step1
  split
  · exact h
  · split
    · exact push_result_inv _ h
    · exact h

theorem pass3Step2_inv (tl : String) {st : SState} (sd : Device)
    (h : SInv st) : SInv (pass3Step2 tl st sd) := by
  unfold pass3Step2
  split
  · exact h
  · split
    · exact push_result_inv _ h
    · exact h

theorem pass3_inv (env : SearchEnv) (tl : String) {s : SState} (h : SInv s) :
    SInv (pass3 env tl s) := by
  unfold pass3
  split
  · apply foldl_inv _ _ _ _ h
    intro st a h'
    exact pass3Step2_inv tl a (pass3Step1_inv tl a h')
  · exact h

theorem pass4_inv (env : SearchEnv) (tl : String) {s : SState} (h : SInv s) :
    SInv (pass4 env tl s) := by
  unfold pass4
  split
  · apply foldl_inv _ _ _ _ h
    intro st a h'
    split
    · exact h'
    · split
      · exact push_result_inv _ h'
      · exact h'
  · exact h

/-- Claim C7: every search returns at most 50 results, and their dedup keys
are pairwise distinct, for every environment (catalog, trie, parsers) and
every term. -/
theorem search_cap_and_unique (env : SearchEnv) (term : String) :
    (search env term).length ≤ 50
    ∧ ((search env term).map SearchResult.key).Nodup := by
  have h0 : SInv ⟨[], []⟩ := by
    refine ⟨by simp [MAX_RESULTS], by simp, by simp⟩
  have h4 := pass4_inv env term.trim.toLower
    (pass3_inv env term.trim.toLower
      (pass2_inv env term.trim term.trim.toLower
        (pass1_inv env term.trim h0)))
  exact ⟨h4.1, h4.2.1⟩

theorem push_result_suffix (s : SState) (r : SearchResult) :
    ∃ t, (push_result s r).results = s.results ++ t := by
  unfold push_result
  split
  · exact ⟨[], by simp⟩
  · split
    · exact ⟨[], by simp⟩
    · exact ⟨[r], rfl⟩

theorem foldl_suffix {α : Type} (g : SState → α → SState)
    (hg : ∀ st a, ∃ t, (g st a).results = st.results ++ t) :
    ∀ (l : List α) (st : SState), ∃ t, (l.foldl g st).results = st.results ++ t
  | [], st => ⟨[], by simp⟩
  | x :: xs, st => by
    obtain ⟨t1, h1⟩ := hg st x
    obtain ⟨t2, h2⟩ := foldl_suffix g hg xs (g st x)
    exact ⟨t1 ++ t2, by rw [List.foldl_cons, h2, h1, List.append_assoc]⟩

theorem pass2_suffix (env : SearchEnv) (rt tl : String) (s : SState) :
    ∃ t, (pass2 env rt tl s).results = s.results ++ t := by
  unfold pass2
  split
  · split
    · split
      · apply foldl_suffix
        intro st a
        split
        · exact ⟨[], by simp⟩
        · split
          · split
            · exact push_result_suffix _ _
            · exact ⟨[], by simp⟩
          · exact ⟨[], by simp⟩
      · exact ⟨[], by simp⟩
    · apply foldl_suffix
      intro st a
      split
      · exact ⟨[], by simp⟩
      · split
        · split
          · exact push_result_suffix _ _
          · exact ⟨[], by simp⟩
        · exact ⟨[], by simp⟩
  · exact ⟨[], by simp⟩

theorem pass3Step1_suffix (tl : String) (st : SState) (sd : Device) :
    ∃ t, (pass3Step1 tl st sd).results = st.results ++ t := by
  unfold pass3Step1
  split
  · exact ⟨[], by simp⟩
  · split
    · exact push_result_suffix _ _
    · exact ⟨[], by simp⟩

theorem pass3Step2_suffix (tl : String) (st : SState) (sd : Device) :
    ∃ t, (pass3Step2 tl st sd).results = st.results ++ t := by
  unfold pass3Step2
  split
  · exact ⟨[], by simp⟩
  · split
    · exact push_result_suffix _ _
    · exact ⟨[], by simp⟩

theorem pass3_suffix (env : SearchEnv) (tl : String) (s : SState) :
    ∃ t, (pass3 env tl s).results = s.results ++ t := by
  unfold pass3
  split
  · apply foldl_suffix
    intro st a
    obtain ⟨t1, h1⟩ := pass3Step1_suffix tl st a
    obtain ⟨t2, h2⟩ := pass3Step2_suffix tl (pass3Step1 tl st a) a
    exact ⟨t1 ++ t2, by rw [h2, h1, List.append_assoc]⟩
  · exact ⟨[], by simp⟩

theorem pass4_suffix (env : SearchEnv) (tl : String) (s : SState) :
    ∃ t, (pass4 env tl s).results = s.results ++ t := by
  unfold pass4
  split
  · apply foldl_suffix
    intro st a
    split
    · exact ⟨[], by simp⟩
    · split
      · exact push_result_suffix _ _
      · exact ⟨[], by simp⟩
  · exact ⟨[], by simp⟩

/-- Claim C8: when the trimmed term parses as an IP whose mapped v6 address
has a longest-prefix match in the trie resolving to a device, the first
element of the search result is that Device result, and the IP-lookup pass
contributes at most one result. -/
theorem search_ip_first (env : SearchEnv) (term : String) (ip : IpAddr)
    (net : IpNetwork) (idx : Nat) (dev : Device)
    (h1 : env.parseIp term.trim = some ip)
    (h2 : env.longestMatch (queryV6 ip) = some (net, idx))
    (h3 : env.devices.get? idx = some dev) :
    (search env term).head? = some (SearchResult.Device dev.circuit_id
      (dev.device_name ++ " (" ++ env.display net ++ ")") dev.circuit_name)
    ∧ (pass1 env term.trim ⟨[], []⟩).results.length ≤ 1 := by
  have hp1 : pass1 env term.trim ⟨[], []⟩
      = ⟨[SearchResult.Device dev.circuit_id
          (dev.device_name ++ " (" ++ env.display net ++ ")") dev.circuit_name],
         [(SearchResult.Device dev.circuit_id
          (dev.device_name ++ " (" ++ env.display net ++ ")") dev.circuit_name).key]⟩ := by
    have h3' : env.devices[idx]? = some dev := by
      simpa [List.get?_eq_getElem?] using h3
    simp [pass1, h1, h2, h3', push_result, MAX_RESULTS]
  constructor
  · obtain ⟨t2, e2⟩ := pass2_suffix env term.trim term.trim.toLower
      (pass1 env term.trim ⟨[], []⟩)
    obtain ⟨t3, e3⟩ := pass3_suffix env term.trim.toLower
      (pass2 env term.trim term.trim.toLower (pass1 env term.trim ⟨[], []⟩))
    obtain ⟨t4, e4⟩ := pass4_suffix env term.trim.toLower
      (pass3 env term.trim.toLower
        (pass2 env term.trim term.trim.toLower (pass1 env term.trim ⟨[], []⟩)))
    show (pass4 env term.trim.toLower (pass3 env term.trim.toLower
      (pass2 env term.trim term.trim.toLower
        (pass1 env term.trim ⟨[], []⟩)))).results.head? = _
    rw [e4, e3, e2, hp1]
    simp
  · rw [hp1]
    simp

/-- A concrete search environment for the C8 witness: every external function
constant, one device, an empty trie and no site nodes. -/
def env0 : SearchEnv where
  parseIp := fun _ => some (.V4 167838211)
  parseNet := fun _ => none
  display := fun _ => "::ffff:10.1.0.0/112"
  mkV6Net := fun _ _ => none
  longestMatch := fun _ => some (.V6 281470816403456 112, 0)
  trie := []
  devices := [⟨"c1", "dev1", "circ1"⟩]
  nodes := []

/-- Claim C8 witness: the theorem evaluated on the concrete environment and
the term 10.1.2.3. -/
theorem search_ip_first_witness :
    (search env0 "10.1.2.3").head? = some (SearchResult.Device "c1"
      ("dev1" ++ " (" ++ "::ffff:10.1.0.0/112" ++ ")") "circ1")
    ∧ (pass1 env0 "10.1.2.3".trim ⟨[], []⟩).results.length ≤ 1 :=
  search_ip_first env0 "10.1.2.3" (.V4 167838211) (.V6 281470816403456 112) 0
    ⟨"c1", "dev1", "circ1"⟩ rfl rfl rfl

/-! Embedding of the override file
(src/rust/lqos_overrides/src/overrides_file.rs).  The file lock, the config
loader, serde and the file system are external; they enter as fields of an
explicit IO environment. -/

/-- Modelled from the spec: lqos_config::ShapedDevice is not in the sources.
Only device_id and circuit_id are consulted by overrides_file.rs; the
remaining fields are abstracted into payload so that equality of two devices
remains structural equality of all fields. -/
structure ShapedDevice where
  device_id : String
  circuit_id : String
  payload : String
deriving DecidableEq, Repr

/-- CircuitAdjustment from overrides_file.rs lines 11-31. -/
inductive CircuitAdjustment
  | CircuitAdjustSpeed (circuit_id : String)
      (min_download_bandwidth max_download_bandwidth
       min_upload_bandwidth max_upload_bandwidth : Option Rat)
  | DeviceAdjustSpeed (device_id : String)
      (min_download_bandwidth max_download_bandwidth
       min_upload_bandwidth max_upload_bandwidth : Option Rat)
  | RemoveCircuit (circuit_id : String)
  | RemoveDevice (device_id : String)
  | ReparentCircuit (circuit_id parent_node : String)
deriving DecidableEq, Repr

/-- NetworkAdjustment from overrides_file.rs lines 33-41. -/
inductive NetworkAdjustment
  | AdjustSiteSpeed (site_name : String)
      (download_bandwidth_mbps upload_bandwidth_mbps : Option Nat)
deriving DecidableEq, Repr

/-- OverrideFile from overrides_file.rs lines 43-56. -/
structure OverrideFile where
  persistent_devices : List ShapedDevice
  circuit_adjustments : List CircuitAdjustment
  network_adjustments : List NetworkAdjustment
deriving DecidableEq, Repr

/-- The serde Default of OverrideFile: all three lists empty. -/
def defaultOverrideFile : OverrideFile := ⟨[], [], []⟩

/-- The failure points of OverrideFile::load, in source order: the file lock,
the config loader, the creating write, the read and the JSON parse. -/
inductive LoadError
  | LockFailed
  | ConfigFailed
  | WriteFailed
  | ReadFailed
  | JsonFailed
deriving DecidableEq, Repr

/-- The external collaborators of OverrideFile::load: outcomes of the
advisory FileLock and of lqos_config::load_config (its lqos_directory on
success), the file-system contents as a path-to-contents association list,
whether the creating write succeeds, and serde serialization and parsing as
opaque functions. -/
structure OverridesIoEnv where
  lock_ok : Bool
  config_dir : Option String
  fs : List (String × String)
  write_ok : Bool
  ser : OverrideFile → String
  deser : String → Option OverrideFile

/-- Contents of the file at a path, when present. -/
def lookupFs (fs : List (String × String)) (p : String) : Option String :=
  (fs.find? (fun e => e.1 == p)).map (fun e => e.2)

/-- OverrideFile::load (overrides_file.rs lines 59-73): take the lock, load
the config, create the file with the serialized default when missing, read
it, parse it; every failure is returned to the caller.  The possibly-updated
file system travels with the result. -/
def OverrideFile.load (env : OverridesIoEnv) :
    Except LoadError (OverrideFile × List (String × String)) :=
  if !env.lock_ok then .error .LockFailed
  else
    match env.config_dir with
    | none => .error .ConfigFailed
    | some dir =>
      let path := dir ++ "/lqos_overrides.json"
      let create : Except LoadError (List (String × String)) :=
        if (lookupFs env.fs path).isSome then .ok env.fs
        else if !env.write_ok then .error .WriteFailed
        else .ok ((path, env.ser defaultOverrideFile) :: env.fs)
      match create with
      | .error e => .error e
      | .ok fs1 =>
        match lookupFs fs1 path with
        | none => .error .ReadFailed
        | some raw =>
          match env.deser raw with
          | none => .error .JsonFailed
          | some file => .ok (file, fs1)

/-- Claim C9: when the override file does not exist, load creates it with the
serialized default override set and returns the default OverrideFile, whose
three lists are all empty; a lock or I/O failure and a JSON parse failure are
returned as errors to the caller.  The only assumption on serde is that
parsing the serialization of the default value yields the default value. -/
theorem override_load_missing_creates_default (env : OverridesIoEnv)
    (dir : String)
    (hL : env.lock_ok = true)
    (hC : env.config_dir = some dir)
    (hE : lookupFs env.fs (dir ++ "/lqos_overrides.json") = none)
    (hW : env.write_ok = true)
    (hR : env.deser (env.ser defaultOverrideFile) = some defaultOverrideFile) :
    (OverrideFile.load env = .ok (defaultOverrideFile,
        (dir ++ "/lqos_overrides.json", env.ser defaultOverrideFile) :: env.fs))
    ∧ lookupFs ((dir ++ "/lqos_overrides.json", env.ser defaultOverrideFile) :: env.fs)
        (dir ++ "/lqos_overrides.json") = some (env.ser defaultOverrideFile)
    ∧ defaultOverrideFile.persistent_devices = []
    ∧ defaultOverrideFile.circuit_adjustments = []
    ∧ defaultOverrideFile.network_adjustments = []
    ∧ (∀ env2 : OverridesIoEnv, env2.lock_ok = false →
        OverrideFile.load env2 = .error .LockFailed)
    ∧ (∀ (env3 : OverridesIoEnv) (d3 raw : String), env3.lock_ok = true →
        env3.config_dir = some d3 →
        lookupFs env3.fs (d3 ++ "/lqos_overrides.json") = some raw →
        env3.deser raw = none →
        OverrideFile.load env3 = .error .JsonFailed) := by
  refine ⟨?_, ?_, rfl, rfl, rfl, ?_, ?_⟩
  · have hread : lookupFs
        ((dir ++ "/lqos_overrides.json", env.ser defaultOverrideFile) :: env.fs)
        (dir ++ "/lqos_overrides.json") = some (env.ser defaultOverrideFile) := by
      simp [lookupFs]
    simp [OverrideFile.load, hL, hC, hE, hW, hR, hread]
  · simp [lookupFs]
  · intro env2 h
    simp [OverrideFile.load, h]
  · intro env3 d3 raw h1 h2 h3 h4
    simp [OverrideFile.load, h1, h2, h3, h4]

/-- A concrete IO environment for the C9 witness: lock and write succeed, the
file is missing, serde is a stand-in pair of functions correctly
round-tripping the default value. -/
def envIo0 : OverridesIoEnv where
  lock_ok := true
  config_dir := some "/etc/lqos"
  fs := []
  write_ok := true
  ser := fun _ => "default-json"
  deser := fun s => if s == "default-json" then some defaultOverrideFile else none

/-- Claim C9 witness: the theorem evaluated on the concrete environment. -/
theorem override_load_missing_creates_default_witness :
    OverrideFile.load envIo0 = .ok (defaultOverrideFile,
        ("/etc/lqos" ++ "/lqos_overrides.json", envIo0.ser defaultOverrideFile) :: envIo0.fs)
    ∧ defaultOverrideFile.persistent_devices = [] :=
  ⟨(override_load_missing_creates_default envIo0 "/etc/lqos"
      rfl rfl rfl rfl rfl).1,
   (override_load_missing_creates_default envIo0 "/etc/lqos"
      rfl rfl rfl rfl rfl).2.2.1⟩

/-- The early-return condition of add_persistent_shaped_device_return_changed
(overrides_file.rs lines 102-111): the first stored device with the same
device_id exists and equals the argument. -/
def firstMatchEqual (l : List ShapedDevice) (device : ShapedDevice) : Bool :=
  match l.find? (fun d => d.device_id == device.device_id) with
  | some existing => existing == device
  | none => false

/-- add_persistent_shaped_device_return_changed (overrides_file.rs lines
100-116): return false unchanged when the first device with the same
device_id equals the argument; otherwise retain all devices with a different
device_id, append the argument and return true. -/
def add_persistent_shaped_device_return_changed (l : List ShapedDevice)
    (device : ShapedDevice) : Bool × List ShapedDevice :=
  if firstMatchEqual l device then (false, l)
  else (true, l.filter (fun d => !(d.device_id == device.device_id)) ++ [device])

/-- Claim C10: the add-or-replace operation returns false and leaves the list
unchanged exactly when the first stored device with the argument's device_id
equals the argument; otherwise it removes every stored device with that
device_id, appends the argument at the end and returns true, so that after a
true return exactly one stored device carries that device_id and it is the
argument. -/
theorem add_persistent_device_spec (l : List ShapedDevice)
    (device : ShapedDevice) :
    (firstMatchEqual l device = true →
      add_persistent_shaped_device_return_changed l device = (false, l))
    ∧ (firstMatchEqual l device = false →
      add_persistent_shaped_device_return_changed l device
        = (true, l.filter (fun d => !(d.device_id == device.device_id)) ++ [device]))
    ∧ ((add_persistent_shaped_device_return_changed l device).1 = true →
      (add_persistent_shaped_device_return_changed l device).2.filter
          (fun d => d.device_id == device.device_id) = [device]) := by
  refine ⟨?_, ?_, ?_⟩
  · intro h
    simp [add_persistent_shaped_device_return_changed, h]
  · intro h
    simp [add_persistent_shaped_device_return_changed, h]
  · intro h
    by_cases hf : firstMatchEqual l device = true
    · rw [show add_persistent_shaped_device_return_changed l device = (false, l)
        from by simp [add_persistent_shaped_device_return_changed, hf]] at h
      exact absurd h (by simp)
    · rw [show add_persistent_shaped_device_return_changed l device
          = (true, l.filter (fun d => !(d.device_id == device.device_id)) ++ [device])
        from by simp [add_persistent_shaped_device_return_changed, hf]]
      have hcontra : ∀ d : ShapedDevice,
          ((d.device_id == device.device_id) && !(d.device_id == device.device_id)) = false := by
        intro d
        cases d.device_id == device.device_id <;> rfl
      simp [List.filter_append, List.filter_filter, hcontra]

/-- Claim C10 witness: replacing a stored device that shares the device_id
but differs in content returns true and leaves exactly the argument stored
under that device_id. -/
theorem add_persistent_device_spec_witness :
    add_persistent_shaped_device_return_changed
        [⟨"id1", "c1", "x"⟩] ⟨"id1", "c1", "z"⟩
      = (true, [⟨"id1", "c1", "z"⟩])
    ∧ (add_persistent_shaped_device_return_changed
        [⟨"id1", "c1", "x"⟩] ⟨"id1", "c1", "z"⟩).2.filter
          (fun d => d.device_id == (⟨"id1", "c1", "z"⟩ : ShapedDevice).device_id)
        = [⟨"id1", "c1", "z"⟩] := by
  constructor
  · exact ((add_persistent_device_spec [⟨"id1", "c1", "x"⟩]
      ⟨"id1", "c1", "z"⟩).2.1 (by decide)).trans (by decide)
  · exact (add_persistent_device_spec [⟨"id1", "c1", "x"⟩]
      ⟨"id1", "c1", "z"⟩).2.2 (by decide)

end LibreQoS
